import Mathlib

/-!
Shallow embedding of the scad repository's Python scripts
(mesh analysis and modification tools for the NucDeck handheld housing),
together with proofs about the embedded operations.

Numeric code is embedded over `ℚ` where only field arithmetic and
comparisons occur, and over `ℝ` where square roots or convex hulls are
involved.  Python dictionaries returned by the scripts are embedded as
structures; exceptions are embedded as `Except`; `None` as `Option.none`.
-/

namespace Scad

/-! ## String utilities: Python `sub in s` and `s.lower()` -/

/-- Decide whether the second character list begins with the first. -/
def charsBeginWith : List Char → List Char → Bool
  | [], _ => true
  | _ :: _, [] => false
  | a :: as, b :: bs => a == b && charsBeginWith as bs

/-- Decide whether `sub` occurs contiguously inside `hay`
(the semantics of Python's `sub in hay` on strings). -/
def charsContain (hay sub : List Char) : Bool :=
  charsBeginWith sub hay ||
    match hay with
    | [] => false
    | _ :: t => charsContain t sub

/-- Python `sub in s` for strings. -/
def pyIn (sub s : String) : Bool := charsContain s.data sub.data

/-- Python `s.lower()`: lower-case every character. -/
def pyLower (s : String) : String := String.mk (s.data.map Char.toLower)

/-- Python truthiness of `s or b` where `s` is a string literal and `b` a
boolean: a non-empty string is truthy, so the result is `True` unless `s`
is empty. -/
def pyStrOrBool (s : String) (b : Bool) : Bool := if s.isEmpty then b else true

/-! ## model_library.py : `ModelLibrary._categorize_model` -/

/-- Embedding of `ModelLibrary._categorize_model` from `model_library.py`.
`path_str` is `str(model_path).lower()` and `name` is `model_path.stem.lower()`
in the source; here the lowering is applied to the two raw strings.
The condition `'dpad' or 'd-pad' in name` is embedded with Python's
truthiness semantics via `pyStrOrBool`. -/
def categorize_model (path_str name : String) : String :=
  let p := pyLower path_str
  let n := pyLower name
  if pyIn "housing" p then
    if pyIn "front" n then "housing_front"
    else if pyIn "back" n || pyIn "cover" n then "housing_back"
    else if pyIn "grip" n then "housing_grip"
    else if pyIn "trigger" n then "housing_trigger"
    else "housing_misc"
  else if pyIn "button" p then
    if pyIn "action" n then "button_action"
    else if pyIn "trigger" n then "button_trigger"
    else if pyIn "shoulder" n then "button_shoulder"
    else if pyStrOrBool "dpad" (pyIn "d-pad" n) then "button_dpad"
    else if pyIn "volume" n then "button_volume"
    else "button_misc"
  else "unknown"

/-! ## web_viewer/server.py : `NucDeckHTTPHandler.do_POST` -/

/-- Action taken by the POST dispatcher. -/
inductive PostAction where
  | regenerate
  | upload
  | sendError (code : Nat) (message : String)
deriving DecidableEq

/-- Embedding of `NucDeckHTTPHandler.do_POST`: route on the request path. -/
def do_POST (path : String) : PostAction :=
  if path = "/api/regenerate" then PostAction.regenerate
  else if path = "/api/upload" then PostAction.upload
  else PostAction.sendError 404 "API endpoint not found"

/-! ## web_viewer/server.py : `handle_regenerate_request` -/

/-- JSON body of the regenerate response (the fields the handler sets). -/
structure RegenerateBody where
  status : String
  message : String
  output_file : Option String
deriving DecidableEq

/-- HTTP response: status code plus JSON body. -/
structure HttpResponse where
  code : Nat
  body : RegenerateBody
deriving DecidableEq

/-- The output STL path hard-coded in `handle_regenerate_request`. -/
def output_stl_path : String := "/workspaces/scad/output/nucdeck_web_generated.stl"

/-- Look a key up in a Python-dict-as-association-list. -/
def lookupParam (ps : List (String × ℚ)) (k : String) : Option ℚ :=
  (ps.find? fun p => p.1 == k).map fun p => p.2

/-- Embedding of the web-parameter to CAD-parameter conversion inside
`handle_regenerate_request` (`phoneWidth`, `phoneHeight`, `batterySize`,
`gripOffset`). -/
def convert_web_params (ps : List (String × ℚ)) : List (String × ℚ) :=
  (match lookupParam ps "phoneWidth" with
    | some v => [("phone_width", v)]
    | none => []) ++
  (match lookupParam ps "phoneHeight" with
    | some v => [("phone_height", v)]
    | none => []) ++
  (match lookupParam ps "batterySize" with
    | some v => [("battery_height", v / 1000)]
    | none => []) ++
  (match lookupParam ps "gripOffset" with
    | some v => [("grip_offset", v)]
    | none => [])

/-- Embedding of `NucDeckHTTPHandler.handle_regenerate_request`.
`request` is the result of reading and JSON-parsing the request body
(`Except.error` when an exception is raised anywhere in the `try` block
before the response is sent); `render_stl` is the boolean outcome of
`automator.render_stl` on the converted parameters. -/
def handle_regenerate_request (request : Except String (List (String × ℚ)))
    (render_stl : List (String × ℚ) → Bool) : HttpResponse :=
  match request with
  | Except.error e =>
      { code := 500
        body := { status := "error"
                  message := "Error processing request: " ++ e
                  output_file := none } }
  | Except.ok parameters =>
      let cad_params := convert_web_params parameters
      let success := render_stl cad_params
      { code := 200
        body := { status := if success then "success" else "error"
                  message := if success then "Model regenerated successfully"
                             else "Failed to regenerate model"
                  output_file := if success then some output_stl_path else none } }

/-! ## feature_detection.py : `classify_detected_features` -/

/-- A detected circular feature (center and fitted radius). -/
structure CircFeature where
  center : ℚ × ℚ × ℚ
  radius : ℚ
deriving DecidableEq

/-- A detected rectangular feature (cluster center, bounding dimensions, area). -/
structure RectFeature where
  center : ℚ × ℚ × ℚ
  dims : ℚ × ℚ × ℚ
  area : ℚ
deriving DecidableEq

/-- The classification buckets built by `classify_detected_features`. -/
structure Classified where
  joysticks : List CircFeature
  large_buttons : List CircFeature
  small_buttons : List CircFeature
  dpad : List RectFeature
  triggers : List RectFeature
  unknown_circular : List CircFeature
  unknown_rectangular : List RectFeature
deriving DecidableEq

/-- The empty classification dictionary. -/
def emptyClassified : Classified :=
  { joysticks := [], large_buttons := [], small_buttons := [], dpad := []
    triggers := [], unknown_circular := [], unknown_rectangular := [] }

/-- One iteration of the circular-feature classification loop. -/
def classifyCircStep (c : Classified) (f : CircFeature) : Classified :=
  if 14 ≤ f.radius ∧ f.radius ≤ 18 then
    { c with joysticks := c.joysticks ++ [f] }
  else if 5 ≤ f.radius ∧ f.radius ≤ 8 then
    { c with large_buttons := c.large_buttons ++ [f] }
  else if 3 ≤ f.radius ∧ f.radius ≤ 5 then
    { c with small_buttons := c.small_buttons ++ [f] }
  else
    { c with unknown_circular := c.unknown_circular ++ [f] }

/-- One iteration of the rectangular-feature classification loop. -/
def classifyRectStep (c : Classified) (f : RectFeature) : Classified :=
  let d0 := f.dims.1
  let d1 := f.dims.2.1
  if 20 ≤ d0 ∧ d0 ≤ 30 ∧ 20 ≤ d1 ∧ d1 ≤ 30 ∧ |d0 - d1| < 5 then
    { c with dpad := c.dpad ++ [f] }
  else if 15 ≤ max d0 d1 ∧ max d0 d1 ≤ 22 ∧ 6 ≤ min d0 d1 ∧ min d0 d1 ≤ 10 then
    { c with triggers := c.triggers ++ [f] }
  else
    { c with unknown_rectangular := c.unknown_rectangular ++ [f] }

/-- Embedding of `classify_detected_features` from `feature_detection.py`:
fold the circular loop, then the rectangular loop, over the empty dictionary. -/
def classify_detected_features (circ : List CircFeature) (rect : List RectFeature) :
    Classified :=
  rect.foldl classifyRectStep (circ.foldl classifyCircStep emptyClassified)

/-- Radius test of the `joysticks` bucket (radius in `[14, 18]`). -/
def isJoystickRadius (f : CircFeature) : Bool :=
  decide (14 ≤ f.radius ∧ f.radius ≤ 18)

/-- Radius test of the `large_buttons` bucket (radius in `[5, 8]`). -/
def isLargeButtonRadius (f : CircFeature) : Bool :=
  decide (5 ≤ f.radius ∧ f.radius ≤ 8)

/-- Radius test of the `small_buttons` bucket: radius in `[3, 5)` — the
branch condition `3 <= radius <= 5` restricted by the earlier
`5 <= radius <= 8` branch. -/
def isSmallButtonRadius (f : CircFeature) : Bool :=
  decide (3 ≤ f.radius ∧ f.radius < 5)

/-- Radius test of the `unknown_circular` bucket: none of the above. -/
def isUnknownCircRadius (f : CircFeature) : Bool :=
  !isJoystickRadius f && !isLargeButtonRadius f && !isSmallButtonRadius f

/-- Dimension test of the `dpad` bucket (roughly square, 20–30 mm sides). -/
def isDpadDims (f : RectFeature) : Bool :=
  decide (20 ≤ f.dims.1 ∧ f.dims.1 ≤ 30 ∧ 20 ≤ f.dims.2.1 ∧ f.dims.2.1 ≤ 30 ∧
    |f.dims.1 - f.dims.2.1| < 5)

/-- Dimension test of the trigger-slot branch condition. -/
def isTriggerSlotDims (f : RectFeature) : Bool :=
  decide (15 ≤ max f.dims.1 f.dims.2.1 ∧ max f.dims.1 f.dims.2.1 ≤ 22 ∧
    6 ≤ min f.dims.1 f.dims.2.1 ∧ min f.dims.1 f.dims.2.1 ≤ 10)

/-- Dimension test of the `triggers` bucket: trigger slot and not D-pad. -/
def isTriggerDims (f : RectFeature) : Bool :=
  !isDpadDims f && isTriggerSlotDims f

/-- Dimension test of the `unknown_rectangular` bucket: neither of the above. -/
def isUnknownRectDims (f : RectFeature) : Bool :=
  !isDpadDims f && !isTriggerSlotDims f

/-! ## comprehensive_analysis.py : `detect_holes_and_cutouts` -/

/-- Kind of record appended by the ray-classification loop. -/
inductive HoleKind where
  | through_hole
  | cutout
deriving DecidableEq

/-- The `depth` entry: the string `'full'` for through holes, a number for
cutouts. -/
inductive HoleDepth where
  | full
  | mm (d : ℚ)
deriving DecidableEq

/-- One record of the `holes_detected` list. -/
structure HoleRec where
  center : ℚ × ℚ
  kind : HoleKind
  depth : HoleDepth
  z_range : Option (ℚ × ℚ)
deriving DecidableEq

/-- Binary maximum on ℚ by comparison (kernel-reducible). -/
def pyMax (a b : ℚ) : ℚ := if a ≤ b then b else a

/-- Binary minimum on ℚ by comparison (kernel-reducible). -/
def pyMin (a b : ℚ) : ℚ := if a ≤ b then a else b

/-- Maximum of a list of rationals (`numpy .max()`), 0 on the empty list. -/
def listMaxD : List ℚ → ℚ
  | [] => 0
  | z :: t => t.foldl pyMax z

/-- Minimum of a list of rationals (`numpy .min()`), 0 on the empty list. -/
def listMinD : List ℚ → ℚ
  | [] => 0
  | z :: t => t.foldl pyMin z

/-- Body of the per-ray loop in `detect_holes_and_cutouts`: `(x, y)` is the
ray origin in the grid, `zs` the Z coordinates of the ray's intersections
with the mesh.  Returns the records appended for this ray. -/
def classify_ray (x y : ℚ) (zs : List ℚ) : List HoleRec :=
  if zs.length = 0 then
    [{ center := (x, y), kind := HoleKind.through_hole
       depth := HoleDepth.full, z_range := none }]
  else if 2 < zs.length then
    let depth := listMaxD zs - listMinD zs
    if 5 < depth then
      [{ center := (x, y), kind := HoleKind.cutout
         depth := HoleDepth.mm depth, z_range := some (listMinD zs, listMaxD zs) }]
    else []
  else []

/-- Embedding of the ray-classification stage of `detect_holes_and_cutouts`:
each grid ray is paired with the Z coordinates of its mesh intersections, and
the per-ray records are concatenated in ray order. -/
def detect_holes_and_cutouts (rays : List ((ℚ × ℚ) × List ℚ)) : List HoleRec :=
  rays.flatMap fun r => classify_ray r.1.1 r.1.2 r.2

/-! ## enhanced_modify_front_cover.py : `validate_cutout_intersection` -/

/-- Axis-aligned bounds of a mesh (`mesh.bounds`: min corner, max corner). -/
structure MeshBounds where
  lo : ℚ × ℚ × ℚ
  hi : ℚ × ℚ × ℚ
deriving DecidableEq

/-- Embedding of `validate_cutout_intersection`: bounding-box overlap test on
the two meshes' bounds. -/
def validate_cutout_intersection (orig cutout : MeshBounds) : Bool :=
  let overlap_x : Bool := decide (cutout.lo.1 < orig.hi.1) && decide (cutout.hi.1 > orig.lo.1)
  let overlap_y : Bool := decide (cutout.lo.2.1 < orig.hi.2.1) && decide (cutout.hi.2.1 > orig.lo.2.1)
  let overlap_z : Bool := decide (cutout.lo.2.2 < orig.hi.2.2) && decide (cutout.hi.2.2 > orig.lo.2.2)
  if !(overlap_x && overlap_y && overlap_z) then false
  else true

/-! ## analyze_stl.py : `analyze_stl_file` and
modify_front_cover.py : `modify_front_cover` -/

/-- The mesh quantities read by `analyze_stl_file` to build its return dict. -/
structure MeshData where
  vertices : Nat
  faces : Nat
  volume : ℚ
  area : ℚ
  bounds : MeshBounds
  center_mass : ℚ × ℚ × ℚ
  is_watertight : Bool
deriving DecidableEq

/-- The dictionary returned by `analyze_stl_file` on success. -/
structure AnalyzeResult where
  filepath : String
  dimensions : ℚ × ℚ × ℚ
  bounds : MeshBounds
  volume : ℚ
  area : ℚ
  center_mass : ℚ × ℚ × ℚ
  geometric_center : ℚ × ℚ × ℚ
  is_watertight : Bool
  vertices : Nat
  faces : Nat
deriving DecidableEq

/-- Embedding of `analyze_stl_file` from `analyze_stl.py`.
`fileExists` is `os.path.exists(filepath)`; `loaded` is the outcome of the
`try` block (loading and analyzing the mesh), `Except.error` when any
exception is raised inside it.  Returns the printed error messages together
with the returned value (`none` embeds Python `None`). -/
def analyze_stl_file (fileExists : Bool) (filepath : String)
    (loaded : Except String MeshData) : List String × Option AnalyzeResult :=
  if !fileExists then
    (["Error: File " ++ filepath ++ " not found"], none)
  else
    match loaded with
    | Except.error e => (["Error analyzing " ++ filepath ++ ": " ++ e], none)
    | Except.ok m =>
        let dims : ℚ × ℚ × ℚ :=
          (m.bounds.hi.1 - m.bounds.lo.1,
           m.bounds.hi.2.1 - m.bounds.lo.2.1,
           m.bounds.hi.2.2 - m.bounds.lo.2.2)
        let gcenter : ℚ × ℚ × ℚ :=
          ((m.bounds.lo.1 + m.bounds.hi.1) / 2,
           (m.bounds.lo.2.1 + m.bounds.hi.2.1) / 2,
           (m.bounds.lo.2.2 + m.bounds.hi.2.2) / 2)
        ([], some
          { filepath := filepath, dimensions := dims, bounds := m.bounds
            volume := m.volume, area := m.area, center_mass := m.center_mass
            geometric_center := gcenter, is_watertight := m.is_watertight
            vertices := m.vertices, faces := m.faces })

/-- Vertex count of the mesh produced by the boolean difference. -/
structure DiffMesh where
  vertices : Nat
deriving DecidableEq

/-- Embedding of `modify_front_cover` from `modify_front_cover.py`.
`inputExists` is `os.path.exists(input_file)`; `diffResult` is the outcome
of `original_mesh.difference(cutout_mesh)` inside its `try` block
(`Except.error` for a raised exception, `Except.ok none` for a `None`
result); `exportResult` is the outcome of the export `try` block.
Returns the printed error messages together with the boolean result. -/
def modify_front_cover (inputExists : Bool)
    (diffResult : Except String (Option DiffMesh))
    (exportResult : Except String Unit) : List String × Bool :=
  if !inputExists then
    (["Error: Input file not found"], false)
  else
    match diffResult with
    | Except.error e => (["Error during boolean operation: " ++ e], false)
    | Except.ok none => (["Error: Boolean operation failed - empty result"], false)
    | Except.ok (some m) =>
        if m.vertices = 0 then
          (["Error: Boolean operation failed - empty result"], false)
        else
          match exportResult with
          | Except.error e => (["Error during export: " ++ e], false)
          | Except.ok _ => ([], true)

/-! ## verify_gaming_controls.py : `fit_circle_2d` -/

/-- Residual of the algebraic circle equation `2*x*q₁ + 2*y*q₂ + q₃ = x² + y²`
at a point `p` for parameters `q` (one row of the overdetermined system
`A params = b` set up in `fit_circle_2d`). -/
def circleResidual (q : ℝ × ℝ × ℝ) (p : ℝ × ℝ) : ℝ :=
  2 * p.1 * q.1 + 2 * p.2 * q.2.1 + q.2.2 - (p.1 ^ 2 + p.2 ^ 2)

/-- The least-squares objective `‖A q - b‖²` minimized by `np.linalg.lstsq`. -/
def lstsqObjective (pts : List (ℝ × ℝ)) (q : ℝ × ℝ × ℝ) : ℝ :=
  (pts.map fun p => circleResidual q p ^ 2).sum

/-- Specification of `np.linalg.lstsq` on the circle system: `q` minimizes
the residual objective over all parameter triples. -/
def IsLstsqSolution (pts : List (ℝ × ℝ)) (q : ℝ × ℝ × ℝ) : Prop :=
  ∀ q2 : ℝ × ℝ × ℝ, lstsqObjective pts q ≤ lstsqObjective pts q2

/-- Embedding of `fit_circle_2d` from `verify_gaming_controls.py`: with fewer
than 3 points it returns `([0, 0], 0)`; otherwise it returns the center
`(sol₁, sol₂)` and radius `sqrt(sol₁² + sol₂² + sol₃)` computed from the
least-squares solution `sol` of the algebraic system. -/
noncomputable def fit_circle_2d (pts : List (ℝ × ℝ)) (sol : ℝ × ℝ × ℝ) :
    (ℝ × ℝ) × ℝ :=
  if pts.length < 3 then ((0, 0), 0)
  else ((sol.1, sol.2.1), Real.sqrt (sol.1 ^ 2 + sol.2.1 ^ 2 + sol.2.2))

/-! ## verify_gaming_controls.py : `detect_circular_holes` -/

/-- A triangle mesh as used by `detect_circular_holes`: vertex positions,
triangular faces (as vertex-index triples) and the unique edge list
(`mesh.edges_unique`). -/
structure TriMesh where
  vertices : List (ℝ × ℝ × ℝ)
  faces : List (Nat × Nat × Nat)
  edges_unique : List (Nat × Nat)

/-- Python `edge[0] in face`: the vertex index occurs in the face triple. -/
def faceContainsVertex (f : Nat × Nat × Nat) (v : Nat) : Bool :=
  v == f.1 || v == f.2.1 || v == f.2.2

/-- The per-edge face count computed by `detect_circular_holes`: the number of
faces containing both endpoints of the edge. -/
def edge_face_count (m : TriMesh) (e : Nat × Nat) : Nat :=
  (m.faces.filter fun f => faceContainsVertex f e.1 && faceContainsVertex f e.2).length

/-- `boundary_edges = edges[edge_face_count == 1]`. -/
def boundary_edges (m : TriMesh) : List (Nat × Nat) :=
  m.edges_unique.filter fun e => edge_face_count m e == 1

/-- Watertightness in the sense of the spec: every unique edge is contained
in exactly two faces. -/
def IsWatertight (m : TriMesh) : Prop :=
  ∀ e ∈ m.edges_unique, edge_face_count m e = 2

/-- A detected circular hole (center and fitted radius). -/
structure CircHole where
  center : ℝ × ℝ × ℝ
  radius : ℝ

/-- A concrete watertight mesh: the boundary of a tetrahedron. -/
def tetraMesh : TriMesh :=
  { vertices := [(0, 0, 0), (1, 0, 0), (0, 1, 0), (0, 0, 1)]
    faces := [(0, 1, 2), (0, 1, 3), (0, 2, 3), (1, 2, 3)]
    edges_unique := [(0, 1), (0, 2), (0, 3), (1, 2), (1, 3), (2, 3)] }

open Classical in
/-- Embedding of `detect_circular_holes` from `verify_gaming_controls.py`.
`cluster` abstracts the `DBSCAN(...).fit(...).labels_` call (a label per
boundary point, `-1` for noise) and `solver` the `np.linalg.lstsq` call
inside `fit_circle_2d`.  Boundary edges are those whose face count is 1;
when there are none the function returns the empty hole list. -/
noncomputable def detect_circular_holes (m : TriMesh)
    (cluster : List (ℝ × ℝ × ℝ) → List ℤ)
    (solver : List (ℝ × ℝ) → ℝ × ℝ × ℝ)
    (min_radius max_radius : ℝ) : List CircHole :=
  let be := boundary_edges m
  if 0 < be.length then
    let boundary_points :=
      (be.flatMap fun e => [e.1, e.2]).map fun i => (m.vertices.get? i).getD (0, 0, 0)
    if 3 < boundary_points.length then
      let labels := cluster boundary_points
      (labels.eraseDups.filter fun l => l != -1).flatMap fun label =>
        let cluster_points :=
          (boundary_points.zip labels).filterMap fun pl =>
            if pl.2 = label then some pl.1 else none
        if cluster_points.length < 4 then []
        else
          let xy := cluster_points.map fun p => (p.1, p.2.1)
          let fc := fit_circle_2d xy (solver xy)
          if min_radius ≤ fc.2 ∧ fc.2 ≤ max_radius then
            [{ center := (fc.1.1, fc.1.2,
                 (cluster_points.map fun p => p.2.2).sum / cluster_points.length)
               radius := fc.2 }]
          else []
    else []
  else []

/-! ## modify_front_cover.py / enhanced_modify_front_cover.py :
cutout construction, embedded as point sets in ℝ³ -/

/-- `trimesh.creation.box(extents=[w, h, d])`: an axis-aligned box centered
at the origin. -/
def boxSet (w h d : ℝ) : Set (ℝ × ℝ × ℝ) :=
  {p | |p.1| ≤ w / 2 ∧ |p.2.1| ≤ h / 2 ∧ |p.2.2| ≤ d / 2}

/-- `trimesh.creation.cylinder(radius=r, height=ht)`: a Z-axis cylinder
centered at the origin (the polygonal approximation is inscribed in it). -/
def cylinderSet (r ht : ℝ) : Set (ℝ × ℝ × ℝ) :=
  {p | p.1 ^ 2 + p.2.1 ^ 2 ≤ r ^ 2 ∧ |p.2.2| ≤ ht / 2}

/-- `mesh.apply_translation(v)` as an operation on point sets. -/
def translateSet (v : ℝ × ℝ × ℝ) (S : Set (ℝ × ℝ × ℝ)) : Set (ℝ × ℝ × ℝ) :=
  {p | (p.1 - v.1, p.2.1 - v.2.1, p.2.2 - v.2.2) ∈ S}

/-- The union of the parts assembled by both cutout builders when
`corner_radius > 0`: the main `w×h×d` box, the four corner cylinders at
`(±half_w, ±half_h)`, the two horizontal strips translated to
`(0, ±(half_h + r))` and the two vertical strips translated to
`(±(half_w + r), 0)`, with `half_w = w/2 - r` and `half_h = h/2 - r`. -/
def roundedRectParts (w h d r : ℝ) : Set (ℝ × ℝ × ℝ) :=
  let half_w := w / 2 - r
  let half_h := h / 2 - r
  boxSet w h d ∪
  translateSet (half_w, half_h, 0) (cylinderSet r d) ∪
  translateSet (-half_w, half_h, 0) (cylinderSet r d) ∪
  translateSet (-half_w, -half_h, 0) (cylinderSet r d) ∪
  translateSet (half_w, -half_h, 0) (cylinderSet r d) ∪
  translateSet (0, half_h + r, 0) (boxSet (w - 2 * r) (2 * r) d) ∪
  translateSet (0, -half_h - r, 0) (boxSet (w - 2 * r) (2 * r) d) ∪
  translateSet (-half_w - r, 0, 0) (boxSet (2 * r) (h - 2 * r) d) ∪
  translateSet (half_w + r, 0, 0) (boxSet (2 * r) (h - 2 * r) d)

/-- Embedding of `create_rounded_rectangle_cutout` from
`modify_front_cover.py`: concatenate the parts, take the convex hull
(`cutout.convex_hull`), then translate to `center`. -/
noncomputable def create_rounded_rectangle_cutout (w h d r : ℝ)
    (center : ℝ × ℝ × ℝ) : Set (ℝ × ℝ × ℝ) :=
  if 0 < r then translateSet center (convexHull ℝ (roundedRectParts w h d r))
  else translateSet center (boxSet w h d)

/-- Embedding of `create_precise_cutout` from
`enhanced_modify_front_cover.py`: union the same parts (no hull), then
translate to the (surface-level adjusted) center. -/
noncomputable def create_precise_cutout (w h d r : ℝ) (center : ℝ × ℝ × ℝ)
    (surface_level : Option ℝ) : Set (ℝ × ℝ × ℝ) :=
  let c := match surface_level with
    | some s => (center.1, center.2.1, s - d / 2)
    | none => center
  if 0 < r then translateSet c (roundedRectParts w h d r)
  else translateSet c (boxSet w h d)

/-- `S` has the axis-aligned bounding rectangle `[x0, x1] × [y0, y1]` in the
XY plane: all points lie within the bounds and each bound is attained. -/
def HasBBoxXY (S : Set (ℝ × ℝ × ℝ)) (x0 x1 y0 y1 : ℝ) : Prop :=
  (∀ p ∈ S, x0 ≤ p.1 ∧ p.1 ≤ x1 ∧ y0 ≤ p.2.1 ∧ p.2.1 ≤ y1) ∧
  (∃ p ∈ S, p.1 = x0) ∧ (∃ p ∈ S, p.1 = x1) ∧
  (∃ p ∈ S, p.2.1 = y0) ∧ (∃ p ∈ S, p.2.1 = y1)

/-! ## Theorems -/

/-- C7: the POST handler serves exactly two endpoints: a POST to
`/api/regenerate` is dispatched to the model-regeneration handler, a POST to
`/api/upload` is dispatched to the upload handler, and every POST to any
other path receives a 404 error response. -/
theorem do_POST_two_endpoints (path : String) :
    (path = "/api/regenerate" → do_POST path = PostAction.regenerate) ∧
    (path = "/api/upload" → do_POST path = PostAction.upload) ∧
    (path ≠ "/api/regenerate" → path ≠ "/api/upload" →
      do_POST path = PostAction.sendError 404 "API endpoint not found") := by
  refine ⟨fun h => ?_, fun h => ?_, fun h1 h2 => ?_⟩
  · subst h; decide
  · subst h; decide
  · rw [do_POST, if_neg h1, if_neg h2]

/-- Witness for C7 at the three kinds of paths. -/
theorem do_POST_two_endpoints_witness :
    do_POST "/api/regenerate" = PostAction.regenerate ∧
    do_POST "/api/upload" = PostAction.upload ∧
    do_POST "/models/front.stl" = PostAction.sendError 404 "API endpoint not found" :=
  ⟨(do_POST_two_endpoints "/api/regenerate").1 rfl,
   (do_POST_two_endpoints "/api/upload").2.1 rfl,
   (do_POST_two_endpoints "/models/front.stl").2.2 (by decide) (by decide)⟩

/-- C8: `validate_cutout_intersection` returns `True` iff the two bounding
boxes strictly overlap in all three axes, and `False` exactly when the
overlap test fails in at least one axis. -/
theorem validate_cutout_intersection_bbox_overlap (orig cutout : MeshBounds) :
    (validate_cutout_intersection orig cutout = true ↔
      (cutout.lo.1 < orig.hi.1 ∧ orig.lo.1 < cutout.hi.1) ∧
      (cutout.lo.2.1 < orig.hi.2.1 ∧ orig.lo.2.1 < cutout.hi.2.1) ∧
      (cutout.lo.2.2 < orig.hi.2.2 ∧ orig.lo.2.2 < cutout.hi.2.2)) ∧
    (validate_cutout_intersection orig cutout = false ↔
      ¬((cutout.lo.1 < orig.hi.1 ∧ orig.lo.1 < cutout.hi.1) ∧
        (cutout.lo.2.1 < orig.hi.2.1 ∧ orig.lo.2.1 < cutout.hi.2.1) ∧
        (cutout.lo.2.2 < orig.hi.2.2 ∧ orig.lo.2.2 < cutout.hi.2.2))) := by
  constructor
  · simp [validate_cutout_intersection]
    tauto
  · rw [← Bool.not_eq_true]
    simp [validate_cutout_intersection]

/-- C9: `handle_regenerate_request` responds 200 whenever no exception
escapes; on render failure the body carries status `error`, message
`Failed to regenerate model` and a null output file, on success it carries
status `success` and the output path; a 500 response is sent only on an
exception. -/
theorem handle_regenerate_request_status (ps : List (String × ℚ))
    (render : List (String × ℚ) → Bool) (e : String) :
    (handle_regenerate_request (Except.ok ps) render).code = 200 ∧
    (render (convert_web_params ps) = false →
      (handle_regenerate_request (Except.ok ps) render).body =
        { status := "error", message := "Failed to regenerate model"
          output_file := none }) ∧
    (render (convert_web_params ps) = true →
      (handle_regenerate_request (Except.ok ps) render).body =
        { status := "success", message := "Model regenerated successfully"
          output_file := some output_stl_path }) ∧
    (handle_regenerate_request (Except.error e) render).code = 500 := by
  refine ⟨rfl, fun h => ?_, fun h => ?_, rfl⟩ <;>
    simp [handle_regenerate_request, h]

/-- Witness for C9: a failing render and an exception, at concrete inputs. -/
theorem handle_regenerate_request_status_witness :
    (handle_regenerate_request (Except.ok [("phoneWidth", 152)])
      (fun _ => false)).code = 200 ∧
    (handle_regenerate_request (Except.ok [("phoneWidth", 152)])
      (fun _ => false)).body =
      { status := "error", message := "Failed to regenerate model"
        output_file := none } ∧
    (handle_regenerate_request (Except.error "boom") (fun _ => false)).code = 500 :=
  ⟨(handle_regenerate_request_status [("phoneWidth", 152)] (fun _ => false) "boom").1,
   (handle_regenerate_request_status [("phoneWidth", 152)] (fun _ => false) "boom").2.1 rfl,
   (handle_regenerate_request_status [("phoneWidth", 152)] (fun _ => false) "boom").2.2.2⟩

/-- C6: on failure the scripts print a message and return `None`/`False`:
`analyze_stl_file` on a missing file prints an error and returns `None`;
`modify_front_cover` returns `False` (after printing) when the input file is
missing, when the boolean difference raises, returns `None` or an empty
mesh, and when the export raises. -/
theorem scripts_fail_soft (filepath : String) (loaded : Except String MeshData)
    (d : Except String (Option DiffMesh)) (ex : Except String Unit)
    (m : DiffMesh) (e : String) :
    ((analyze_stl_file false filepath loaded).2 = none ∧
      (analyze_stl_file false filepath loaded).1 =
        ["Error: File " ++ filepath ++ " not found"]) ∧
    (modify_front_cover false d ex).2 = false ∧
    (modify_front_cover true (Except.error e) ex).2 = false ∧
    (modify_front_cover true (Except.ok none) ex).2 = false ∧
    (m.vertices = 0 → (modify_front_cover true (Except.ok (some m)) ex).2 = false) ∧
    (modify_front_cover true (Except.ok (some m)) (Except.error e)).2 = false := by
  refine ⟨⟨rfl, rfl⟩, rfl, rfl, rfl, fun h => ?_, ?_⟩
  · simp [modify_front_cover, h]
  · by_cases hv : m.vertices = 0 <;> simp [modify_front_cover, hv]

/-- Witness for C6 at concrete inputs, including an empty difference mesh. -/
theorem scripts_fail_soft_witness :
    ((analyze_stl_file false "Housing Front.STL" (Except.ok
        { vertices := 0, faces := 0, volume := 0, area := 0
          bounds := { lo := (0, 0, 0), hi := (0, 0, 0) }
          center_mass := (0, 0, 0), is_watertight := false })).2 = none ∧
      (analyze_stl_file false "Housing Front.STL" (Except.ok
        { vertices := 0, faces := 0, volume := 0, area := 0
          bounds := { lo := (0, 0, 0), hi := (0, 0, 0) }
          center_mass := (0, 0, 0), is_watertight := false })).1 =
        ["Error: File Housing Front.STL not found"]) ∧
    (modify_front_cover true (Except.ok (some { vertices := 0 }))
      (Except.ok ())).2 = false ∧
    (modify_front_cover true (Except.ok (some { vertices := 9 }))
      (Except.error "export failed")).2 = false := by
  refine ⟨?_, ?_, ?_⟩
  · exact (scripts_fail_soft "Housing Front.STL" (Except.ok
      { vertices := 0, faces := 0, volume := 0, area := 0
        bounds := { lo := (0, 0, 0), hi := (0, 0, 0) }
        center_mass := (0, 0, 0), is_watertight := false })
      (Except.ok none) (Except.ok ()) { vertices := 0 } "x").1
  · exact (scripts_fail_soft "f" (Except.error "x") (Except.ok none)
      (Except.ok ()) { vertices := 0 } "x").2.2.2.2.1 rfl
  · exact (scripts_fail_soft "f" (Except.error "x") (Except.ok none)
      (Except.error "export failed") { vertices := 9 } "export failed").2.2.2.2.2

/-- The string literal `'dpad'` is non-empty, hence truthy: Python's
`'dpad' or 'd-pad' in name` always evaluates truthy. -/
theorem pyStrOrBool_dpad (b : Bool) : pyStrOrBool "dpad" b = true := rfl

/-- C10: for every model path containing `button` (and not `housing`) whose
stem contains none of `action`, `trigger`, `shoulder`, `_categorize_model`
returns `button_dpad` — the condition `'dpad' or 'd-pad' in name` is always
truthy — so `button_volume` and `button_misc` are never returned for such
paths. -/
theorem categorize_model_dpad_swallows (path name : String)
    (hb : pyIn "button" (pyLower path) = true)
    (hh : pyIn "housing" (pyLower path) = false) :
    (pyIn "action" (pyLower name) = false →
     pyIn "trigger" (pyLower name) = false →
     pyIn "shoulder" (pyLower name) = false →
     categorize_model path name = "button_dpad") ∧
    categorize_model path name ≠ "button_volume" ∧
    categorize_model path name ≠ "button_misc" := by
  refine ⟨fun ha ht hs => ?_, ?_⟩
  · simp [categorize_model, hb, hh, ha, ht, hs, pyStrOrBool_dpad]
  · by_cases h1 : pyIn "action" (pyLower name) = true <;>
      by_cases h2 : pyIn "trigger" (pyLower name) = true <;>
        by_cases h3 : pyIn "shoulder" (pyLower name) = true <;>
          refine ⟨?_, ?_⟩ <;>
            simp [categorize_model, hb, hh, h1, h2, h3, pyStrOrBool_dpad]

/-- Witness for C10: a volume button is categorized `button_dpad`. -/
theorem categorize_model_dpad_swallows_witness :
    categorize_model "Buttons - STL/Volume Up.stl" "Volume Up" = "button_dpad" ∧
    categorize_model "Buttons - STL/Volume Up.stl" "Volume Up" ≠ "button_volume" ∧
    categorize_model "Buttons - STL/Volume Up.stl" "Volume Up" ≠ "button_misc" :=
  ⟨(categorize_model_dpad_swallows "Buttons - STL/Volume Up.stl" "Volume Up"
      (by decide) (by decide)).1 (by decide) (by decide) (by decide),
   (categorize_model_dpad_swallows "Buttons - STL/Volume Up.stl" "Volume Up"
      (by decide) (by decide)).2.1,
   (categorize_model_dpad_swallows "Buttons - STL/Volume Up.stl" "Volume Up"
      (by decide) (by decide)).2.2⟩

/-- C5: each grid ray is classified by its intersection count: zero
intersections yields a `through_hole` record; more than two intersections
with Z-span above 5 mm yields a `cutout` record with that span as depth;
one or two intersections, or more than two with span at most 5 mm, yield
nothing; and the detector is the concatenation of the per-ray records. -/
theorem ray_classification_cases (rays : List ((ℚ × ℚ) × List ℚ))
    (x y : ℚ) (zs : List ℚ) :
    detect_holes_and_cutouts rays =
      rays.flatMap (fun r => classify_ray r.1.1 r.1.2 r.2) ∧
    (zs = [] → classify_ray x y zs =
      [{ center := (x, y), kind := HoleKind.through_hole
         depth := HoleDepth.full, z_range := none }]) ∧
    ((zs.length = 1 ∨ zs.length = 2) → classify_ray x y zs = []) ∧
    (2 < zs.length → 5 < listMaxD zs - listMinD zs →
      classify_ray x y zs =
        [{ center := (x, y), kind := HoleKind.cutout
           depth := HoleDepth.mm (listMaxD zs - listMinD zs)
           z_range := some (listMinD zs, listMaxD zs) }]) ∧
    (2 < zs.length → listMaxD zs - listMinD zs ≤ 5 →
      classify_ray x y zs = []) := by
  refine ⟨rfl, fun h => ?_, fun h => ?_, fun h1 h2 => ?_, fun h1 h2 => ?_⟩
  · subst h; rfl
  · rcases h with h | h <;> simp [classify_ray, h]
  · have h0 : ¬ zs.length = 0 := by omega
    simp [classify_ray, h0, h1, h2]
  · have h0 : ¬ zs.length = 0 := by omega
    have hlt : ¬ (5 < listMaxD zs - listMinD zs) := not_lt.mpr h2
    simp [classify_ray, h0, h1, hlt]

/-- Witness for C5: one ray of each kind. -/
theorem ray_classification_cases_witness :
    classify_ray 10 20 [] =
      [{ center := (10, 20), kind := HoleKind.through_hole
         depth := HoleDepth.full, z_range := none }] ∧
    classify_ray 10 20 [1, 2] = [] ∧
    classify_ray 10 20 [0, 1, 10] =
      [{ center := (10, 20), kind := HoleKind.cutout
         depth := HoleDepth.mm 10, z_range := some (0, 10) }] ∧
    classify_ray 10 20 [0, 1, 2] = [] := by
  refine ⟨?_, ?_, ?_, ?_⟩
  · exact (ray_classification_cases [] 10 20 []).2.1 rfl
  · exact (ray_classification_cases [] 10 20 [1, 2]).2.2.1 (Or.inr rfl)
  · have h := (ray_classification_cases [] 10 20 [0, 1, 10]).2.2.2.1
      (by decide) (by norm_num [listMaxD, listMinD, pyMax, pyMin])
    rw [h]
    norm_num [listMaxD, listMinD, pyMax, pyMin]
  · exact (ray_classification_cases [] 10 20 [0, 1, 2]).2.2.2.2
      (by decide) (by norm_num [listMaxD, listMinD, pyMax, pyMin])

theorem isJoystickRadius_iff (f : CircFeature) :
    isJoystickRadius f = true ↔ (14 ≤ f.radius ∧ f.radius ≤ 18) := by
  simp [isJoystickRadius]

theorem isLargeButtonRadius_iff (f : CircFeature) :
    isLargeButtonRadius f = true ↔ (5 ≤ f.radius ∧ f.radius ≤ 8) := by
  simp [isLargeButtonRadius]

theorem isSmallButtonRadius_iff (f : CircFeature) :
    isSmallButtonRadius f = true ↔ (3 ≤ f.radius ∧ f.radius < 5) := by
  simp [isSmallButtonRadius]

/-- Field-wise description of the circular-classification fold: each bucket
receives exactly the features passing its radius test, appended in order,
and the rectangular buckets are untouched. -/
theorem circFold_spec (xs : List CircFeature) (c : Classified) :
    (xs.foldl classifyCircStep c).joysticks =
      c.joysticks ++ xs.filter isJoystickRadius ∧
    (xs.foldl classifyCircStep c).large_buttons =
      c.large_buttons ++ xs.filter isLargeButtonRadius ∧
    (xs.foldl classifyCircStep c).small_buttons =
      c.small_buttons ++ xs.filter isSmallButtonRadius ∧
    (xs.foldl classifyCircStep c).unknown_circular =
      c.unknown_circular ++ xs.filter isUnknownCircRadius ∧
    (xs.foldl classifyCircStep c).dpad = c.dpad ∧
    (xs.foldl classifyCircStep c).triggers = c.triggers ∧
    (xs.foldl classifyCircStep c).unknown_rectangular = c.unknown_rectangular := by
  induction xs generalizing c with
  | nil => simp
  | cons f t ih =>
    by_cases h1 : 14 ≤ f.radius ∧ f.radius ≤ 18
    · have e1 : isJoystickRadius f = true := (isJoystickRadius_iff f).mpr h1
      have e2 : isLargeButtonRadius f = false := by
        simp only [isLargeButtonRadius, decide_eq_false_iff_not]
        rintro ⟨-, h8⟩; linarith [h1.1]
      have e3 : isSmallButtonRadius f = false := by
        simp only [isSmallButtonRadius, decide_eq_false_iff_not]
        rintro ⟨-, h5⟩; linarith [h1.1]
      have e4 : isUnknownCircRadius f = false := by
        simp [isUnknownCircRadius, e1]
      simpa [classifyCircStep, h1, List.filter_cons, e1, e2, e3, e4] using
        ih { c with joysticks := c.joysticks ++ [f] }
    · by_cases h2 : 5 ≤ f.radius ∧ f.radius ≤ 8
      · have e1 : isJoystickRadius f = false := by
          simp only [isJoystickRadius, decide_eq_false_iff_not]; exact h1
        have e2 : isLargeButtonRadius f = true := (isLargeButtonRadius_iff f).mpr h2
        have e3 : isSmallButtonRadius f = false := by
          simp only [isSmallButtonRadius, decide_eq_false_iff_not]
          rintro ⟨-, h5⟩; linarith [h2.1]
        have e4 : isUnknownCircRadius f = false := by
          simp [isUnknownCircRadius, e2]
        simpa [classifyCircStep, h1, h2, List.filter_cons, e1, e2, e3, e4] using
          ih { c with large_buttons := c.large_buttons ++ [f] }
      · by_cases h3 : 3 ≤ f.radius ∧ f.radius ≤ 5
        · have hlt : f.radius < 5 := by
            rcases lt_or_eq_of_le h3.2 with h | h
            · exact h
            · exact absurd ⟨by linarith [h.ge], by linarith [h.le]⟩ h2
          have e1 : isJoystickRadius f = false := by
            simp only [isJoystickRadius, decide_eq_false_iff_not]; exact h1
          have e2 : isLargeButtonRadius f = false := by
            simp only [isLargeButtonRadius, decide_eq_false_iff_not]; exact h2
          have e3 : isSmallButtonRadius f = true :=
            (isSmallButtonRadius_iff f).mpr ⟨h3.1, hlt⟩
          have e4 : isUnknownCircRadius f = false := by
            simp [isUnknownCircRadius, e3]
          simpa [classifyCircStep, h1, h2, h3, List.filter_cons, e1, e2, e3, e4] using
            ih { c with small_buttons := c.small_buttons ++ [f] }
        · have e1 : isJoystickRadius f = false := by
            simp only [isJoystickRadius, decide_eq_false_iff_not]; exact h1
          have e2 : isLargeButtonRadius f = false := by
            simp only [isLargeButtonRadius, decide_eq_false_iff_not]; exact h2
          have e3 : isSmallButtonRadius f = false := by
            simp only [isSmallButtonRadius, decide_eq_false_iff_not]
            rintro ⟨ha, hb⟩; exact h3 ⟨ha, le_of_lt hb⟩
          have e4 : isUnknownCircRadius f = true := by
            simp [isUnknownCircRadius, e1, e2, e3]
          simpa [classifyCircStep, h1, h2, h3, List.filter_cons, e1, e2, e3, e4] using
            ih { c with unknown_circular := c.unknown_circular ++ [f] }

/-- Field-wise description of the rectangular-classification fold. -/
theorem rectFold_spec (xs : List RectFeature) (c : Classified) :
    (xs.foldl classifyRectStep c).dpad = c.dpad ++ xs.filter isDpadDims ∧
    (xs.foldl classifyRectStep c).triggers = c.triggers ++ xs.filter isTriggerDims ∧
    (xs.foldl classifyRectStep c).unknown_rectangular =
      c.unknown_rectangular ++ xs.filter isUnknownRectDims ∧
    (xs.foldl classifyRectStep c).joysticks = c.joysticks ∧
    (xs.foldl classifyRectStep c).large_buttons = c.large_buttons ∧
    (xs.foldl classifyRectStep c).small_buttons = c.small_buttons ∧
    (xs.foldl classifyRectStep c).unknown_circular = c.unknown_circular := by
  induction xs generalizing c with
  | nil => simp
  | cons f t ih =>
    by_cases h1 : 20 ≤ f.dims.1 ∧ f.dims.1 ≤ 30 ∧ 20 ≤ f.dims.2.1 ∧
        f.dims.2.1 ≤ 30 ∧ |f.dims.1 - f.dims.2.1| < 5
    · have e1 : isDpadDims f = true := by simp only [isDpadDims, decide_eq_true_eq]; exact h1
      have e2 : isTriggerDims f = false := by simp [isTriggerDims, e1]
      have e3 : isUnknownRectDims f = false := by simp [isUnknownRectDims, e1]
      simpa [classifyRectStep, h1, List.filter_cons, e1, e2, e3] using
        ih { c with dpad := c.dpad ++ [f] }
    · have e1 : isDpadDims f = false := by
        simp only [isDpadDims, decide_eq_false_iff_not]; exact h1
      by_cases h2 : 15 ≤ max f.dims.1 f.dims.2.1 ∧ max f.dims.1 f.dims.2.1 ≤ 22 ∧
          6 ≤ min f.dims.1 f.dims.2.1 ∧ min f.dims.1 f.dims.2.1 ≤ 10
      · have hslot : isTriggerSlotDims f = true := by
          rw [isTriggerSlotDims]; exact decide_eq_true h2
        have e2 : isTriggerDims f = true := by
          rw [isTriggerDims, e1, hslot]; rfl
        have e3 : isUnknownRectDims f = false := by
          rw [isUnknownRectDims, e1, hslot]; rfl
        simp only [List.foldl_cons, classifyRectStep]
        rw [if_neg h1, if_pos h2]
        simpa [List.filter_cons, e1, e2, e3] using
          ih { c with triggers := c.triggers ++ [f] }
      · have hslot : isTriggerSlotDims f = false := by
          rw [isTriggerSlotDims]; exact decide_eq_false h2
        have e2 : isTriggerDims f = false := by
          rw [isTriggerDims, hslot]; simp
        have e3 : isUnknownRectDims f = true := by
          rw [isUnknownRectDims, e1, hslot]; rfl
        simp only [List.foldl_cons, classifyRectStep]
        rw [if_neg h1, if_neg h2]
        simpa [List.filter_cons, e1, e2, e3] using
          ih { c with unknown_rectangular := c.unknown_rectangular ++ [f] }

/-- The four circular radius tests partition every feature list by count. -/
theorem circ_filter_partition (xs : List CircFeature) :
    (xs.filter isJoystickRadius).length + (xs.filter isLargeButtonRadius).length +
      (xs.filter isSmallButtonRadius).length +
      (xs.filter isUnknownCircRadius).length = xs.length := by
  induction xs with
  | nil => simp
  | cons f t ih =>
    cases hj : isJoystickRadius f with
    | true =>
      have hJ := (isJoystickRadius_iff f).mp hj
      have e2 : isLargeButtonRadius f = false := by
        simp only [isLargeButtonRadius, decide_eq_false_iff_not]
        rintro ⟨-, h8⟩; linarith [hJ.1]
      have e3 : isSmallButtonRadius f = false := by
        simp only [isSmallButtonRadius, decide_eq_false_iff_not]
        rintro ⟨-, h5⟩; linarith [hJ.1]
      have e4 : isUnknownCircRadius f = false := by simp [isUnknownCircRadius, hj]
      simp [List.filter_cons, hj, e2, e3, e4]
      omega
    | false =>
      cases hl : isLargeButtonRadius f with
      | true =>
        have hL := (isLargeButtonRadius_iff f).mp hl
        have e3 : isSmallButtonRadius f = false := by
          simp only [isSmallButtonRadius, decide_eq_false_iff_not]
          rintro ⟨-, h5⟩; linarith [hL.1]
        have e4 : isUnknownCircRadius f = false := by simp [isUnknownCircRadius, hl]
        simp [List.filter_cons, hj, hl, e3, e4]
        omega
      | false =>
        cases hs2 : isSmallButtonRadius f with
        | true =>
          have e4 : isUnknownCircRadius f = false := by
            simp [isUnknownCircRadius, hs2]
          simp [List.filter_cons, hj, hl, hs2, e4]
          omega
        | false =>
          have e4 : isUnknownCircRadius f = true := by
            simp [isUnknownCircRadius, hj, hl, hs2]
          simp [List.filter_cons, hj, hl, hs2, e4]
          omega

/-- The three rectangular dimension tests partition every feature list. -/
theorem rect_filter_partition (xs : List RectFeature) :
    (xs.filter isDpadDims).length + (xs.filter isTriggerDims).length +
      (xs.filter isUnknownRectDims).length = xs.length := by
  induction xs with
  | nil => simp
  | cons f t ih =>
    cases hd : isDpadDims f with
    | true =>
      have e2 : isTriggerDims f = false := by simp [isTriggerDims, hd]
      have e3 : isUnknownRectDims f = false := by simp [isUnknownRectDims, hd]
      simp [List.filter_cons, hd, e2, e3]
      omega
    | false =>
      cases hs2 : isTriggerSlotDims f with
      | true =>
        have e2 : isTriggerDims f = true := by simp [isTriggerDims, hd, hs2]
        have e3 : isUnknownRectDims f = false := by
          simp [isUnknownRectDims, hs2]
        simp [List.filter_cons, hd, e2, e3]
        omega
      | false =>
        have e2 : isTriggerDims f = false := by simp [isTriggerDims, hs2]
        have e3 : isUnknownRectDims f = true := by
          simp [isUnknownRectDims, hd, hs2]
        simp [List.filter_cons, hd, e2, e3]
        omega

/-- C4: `classify_detected_features` places each circular feature in exactly
one of `joysticks` (radius in `[14, 18]`), `large_buttons` (`[5, 8]`),
`small_buttons` (`[3, 5)`), or `unknown_circular`, and each rectangular
feature in exactly one of `dpad`, `triggers`, or `unknown_rectangular`;
the bucket sizes add up to the input sizes, with nothing dropped or
duplicated. -/
theorem classify_detected_features_partition (circ : List CircFeature)
    (rect : List RectFeature) :
    (classify_detected_features circ rect).joysticks =
      circ.filter isJoystickRadius ∧
    (classify_detected_features circ rect).large_buttons =
      circ.filter isLargeButtonRadius ∧
    (classify_detected_features circ rect).small_buttons =
      circ.filter isSmallButtonRadius ∧
    (classify_detected_features circ rect).unknown_circular =
      circ.filter isUnknownCircRadius ∧
    (classify_detected_features circ rect).dpad = rect.filter isDpadDims ∧
    (classify_detected_features circ rect).triggers =
      rect.filter isTriggerDims ∧
    (classify_detected_features circ rect).unknown_rectangular =
      rect.filter isUnknownRectDims ∧
    (classify_detected_features circ rect).joysticks.length +
      (classify_detected_features circ rect).large_buttons.length +
      (classify_detected_features circ rect).small_buttons.length +
      (classify_detected_features circ rect).unknown_circular.length +
      ((classify_detected_features circ rect).dpad.length +
        (classify_detected_features circ rect).triggers.length +
        (classify_detected_features circ rect).unknown_rectangular.length) =
      circ.length + rect.length := by
  obtain ⟨cj, cl, cs, cu, cd, ct, cr⟩ := circFold_spec circ emptyClassified
  obtain ⟨rd, rt, ru, rj, rl, rs, rc⟩ :=
    rectFold_spec rect (circ.foldl classifyCircStep emptyClassified)
  have hj : (classify_detected_features circ rect).joysticks =
      circ.filter isJoystickRadius := by
    rw [classify_detected_features, rj, cj]; simp [emptyClassified]
  have hl : (classify_detected_features circ rect).large_buttons =
      circ.filter isLargeButtonRadius := by
    rw [classify_detected_features, rl, cl]; simp [emptyClassified]
  have hs : (classify_detected_features circ rect).small_buttons =
      circ.filter isSmallButtonRadius := by
    rw [classify_detected_features, rs, cs]; simp [emptyClassified]
  have hu : (classify_detected_features circ rect).unknown_circular =
      circ.filter isUnknownCircRadius := by
    rw [classify_detected_features, rc, cu]; simp [emptyClassified]
  have hd : (classify_detected_features circ rect).dpad =
      rect.filter isDpadDims := by
    rw [classify_detected_features, rd, cd]; simp [emptyClassified]
  have ht : (classify_detected_features circ rect).triggers =
      rect.filter isTriggerDims := by
    rw [classify_detected_features, rt, ct]; simp [emptyClassified]
  have hr : (classify_detected_features circ rect).unknown_rectangular =
      rect.filter isUnknownRectDims := by
    rw [classify_detected_features, ru, cr]; simp [emptyClassified]
  refine ⟨hj, hl, hs, hu, hd, ht, hr, ?_⟩
  rw [hj, hl, hs, hu, hd, ht, hr]
  rw [circ_filter_partition circ, rect_filter_partition rect]

/-- C3: for every watertight mesh — every unique edge contained in exactly
two faces — `detect_circular_holes` finds zero boundary edges and returns an
empty list of holes, whatever the clustering, the least-squares solver and
the radius window. -/
theorem watertight_no_holes (m : TriMesh)
    (cluster : List (ℝ × ℝ × ℝ) → List ℤ)
    (solver : List (ℝ × ℝ) → ℝ × ℝ × ℝ)
    (min_radius max_radius : ℝ) (hw : IsWatertight m) :
    boundary_edges m = [] ∧
    detect_circular_holes m cluster solver min_radius max_radius = [] := by
  have hbe : boundary_edges m = [] := by
    rw [boundary_edges, List.filter_eq_nil_iff]
    intro e he
    simp [hw e he]
  exact ⟨hbe, by simp [detect_circular_holes, hbe]⟩

/-- Witness for C3: the tetrahedron mesh is watertight and yields no holes. -/
theorem watertight_no_holes_witness :
    boundary_edges tetraMesh = [] ∧
    detect_circular_holes tetraMesh (fun _ => []) (fun _ => (0, 0, 0)) 5 20 = [] :=
  watertight_no_holes tetraMesh (fun _ => []) (fun _ => (0, 0, 0)) 5 20
    (show ∀ e ∈ tetraMesh.edges_unique, edge_face_count tetraMesh e = 2 by decide)

/-- A list of nonnegative reals summing to zero is pointwise zero. -/
theorem sum_sq_list_zero (l : List ℝ) (h : ∀ x ∈ l, 0 ≤ x) (hs : l.sum = 0) :
    ∀ x ∈ l, x = 0 := by
  induction l with
  | nil => simp
  | cons a t ih =>
    have ha : 0 ≤ a := h a (by simp)
    have ht : 0 ≤ t.sum := List.sum_nonneg fun x hx => h x (by simp [hx])
    have hsum : a + t.sum = 0 := by simpa using hs
    have ha0 : a = 0 := by linarith
    have ht0 : t.sum = 0 := by linarith
    intro x hx
    rcases List.mem_cons.mp hx with rfl | hx
    · exact ha0
    · exact ih (fun y hy => h y (by simp [hy])) ht0 x hx

/-- Three distinct points on a circle admit no nontrivial relation
`2*x*d1 + 2*y*d2 + d3 = 0`: a line meets a circle in at most two points. -/
theorem three_point_linear_vanish (p1 p2 p3 : ℝ × ℝ) (a b r d1 d2 d3 : ℝ)
    (h12 : p1 ≠ p2) (h13 : p1 ≠ p3) (h23 : p2 ≠ p3)
    (c1 : (p1.1 - a) ^ 2 + (p1.2 - b) ^ 2 = r ^ 2)
    (c2 : (p2.1 - a) ^ 2 + (p2.2 - b) ^ 2 = r ^ 2)
    (c3 : (p3.1 - a) ^ 2 + (p3.2 - b) ^ 2 = r ^ 2)
    (l1 : 2 * p1.1 * d1 + 2 * p1.2 * d2 + d3 = 0)
    (l2 : 2 * p2.1 * d1 + 2 * p2.2 * d2 + d3 = 0)
    (l3 : 2 * p3.1 * d1 + 2 * p3.2 * d2 + d3 = 0) :
    d1 = 0 ∧ d2 = 0 ∧ d3 = 0 := by
  by_cases hd : d1 = 0 ∧ d2 = 0
  · refine ⟨hd.1, hd.2, ?_⟩
    have h := l1
    rw [hd.1, hd.2] at h
    linarith
  · exfalso
    have hs : 0 < d1 ^ 2 + d2 ^ 2 := by
      rcases not_and_or.mp hd with h | h
      · have h1 : 0 < d1 ^ 2 := by positivity
        nlinarith [sq_nonneg d2]
      · have h1 : 0 < d2 ^ 2 := by positivity
        nlinarith [sq_nonneg d1]
    have key : ∀ q1 q2 : ℝ × ℝ,
        2 * q1.1 * d1 + 2 * q1.2 * d2 + d3 = 0 →
        2 * q2.1 * d1 + 2 * q2.2 * d2 + d3 = 0 →
        (d1 ^ 2 + d2 ^ 2) * (q1.1 - q2.1) =
          d2 * (d2 * (q1.1 - q2.1) - d1 * (q1.2 - q2.2)) ∧
        (d1 ^ 2 + d2 ^ 2) * (q1.2 - q2.2) =
          -d1 * (d2 * (q1.1 - q2.1) - d1 * (q1.2 - q2.2)) := by
      intro q1 q2 hq1 hq2
      constructor
      · linear_combination (d1 / 2) * hq1 - (d1 / 2) * hq2
      · linear_combination (d2 / 2) * hq1 - (d2 / 2) * hq2
    have ne_of : ∀ q1 q2 : ℝ × ℝ, q1 ≠ q2 →
        2 * q1.1 * d1 + 2 * q1.2 * d2 + d3 = 0 →
        2 * q2.1 * d1 + 2 * q2.2 * d2 + d3 = 0 →
        d2 * (q1.1 - q2.1) - d1 * (q1.2 - q2.2) ≠ 0 := by
      intro q1 q2 hne hq1 hq2 he
      obtain ⟨hx, hy⟩ := key q1 q2 hq1 hq2
      rw [he, mul_zero] at hx hy
      have hx0 : q1.1 = q2.1 := by
        rcases mul_eq_zero.mp hx with h | h
        · exact absurd h (ne_of_gt hs)
        · exact sub_eq_zero.mp h
      have hy0 : q1.2 = q2.2 := by
        rcases mul_eq_zero.mp hy with h | h
        · exact absurd h (ne_of_gt hs)
        · exact sub_eq_zero.mp h
      exact hne (Prod.ext hx0 hy0)
    have hA : ∀ q1 q2 : ℝ × ℝ, q1 ≠ q2 →
        (q1.1 - a) ^ 2 + (q1.2 - b) ^ 2 = r ^ 2 →
        (q2.1 - a) ^ 2 + (q2.2 - b) ^ 2 = r ^ 2 →
        2 * q1.1 * d1 + 2 * q1.2 * d2 + d3 = 0 →
        2 * q2.1 * d1 + 2 * q2.2 * d2 + d3 = 0 →
        d2 * (q1.1 + q2.1 - 2 * a) - d1 * (q1.2 + q2.2 - 2 * b) = 0 := by
      intro q1 q2 hne hc1 hc2 hq1 hq2
      obtain ⟨hx, hy⟩ := key q1 q2 hq1 hq2
      have hmul : (d2 * (q1.1 - q2.1) - d1 * (q1.2 - q2.2)) *
          (d2 * (q1.1 + q2.1 - 2 * a) - d1 * (q1.2 + q2.2 - 2 * b)) = 0 := by
        linear_combination (d1 ^ 2 + d2 ^ 2) * hc1 - (d1 ^ 2 + d2 ^ 2) * hc2 -
          (q1.1 + q2.1 - 2 * a) * hx - (q1.2 + q2.2 - 2 * b) * hy
      exact (mul_eq_zero.mp hmul).resolve_left (ne_of q1 q2 hne hq1 hq2)
    have hA12 := hA p1 p2 h12 c1 c2 l1 l2
    have hA13 := hA p1 p3 h13 c1 c3 l1 l3
    have he23 : d2 * (p2.1 - p3.1) - d1 * (p2.2 - p3.2) = 0 := by
      linear_combination hA12 - hA13
    exact ne_of p2 p3 h23 l2 l3 he23

/-- C1: on three or more distinct points lying exactly on the circle of
center `(a, b)` and radius `r > 0`, `fit_circle_2d` (with any least-squares
solution of its algebraic system) returns center `(a, b)` and radius `r`;
on fewer than three points it returns center `(0, 0)` and radius `0`. -/
theorem fit_circle_2d_exact :
    (∀ (pts : List (ℝ × ℝ)) (sol : ℝ × ℝ × ℝ) (a b r : ℝ),
      3 ≤ pts.length → pts.Pairwise (· ≠ ·) → 0 < r →
      (∀ p ∈ pts, (p.1 - a) ^ 2 + (p.2 - b) ^ 2 = r ^ 2) →
      IsLstsqSolution pts sol →
      fit_circle_2d pts sol = ((a, b), r)) ∧
    (∀ (pts : List (ℝ × ℝ)) (sol : ℝ × ℝ × ℝ),
      pts.length < 3 → fit_circle_2d pts sol = ((0, 0), 0)) := by
  constructor
  · intro pts sol a b r hlen hdist hr hcirc hsol
    have hres0 : ∀ p ∈ pts, circleResidual (a, b, r ^ 2 - a ^ 2 - b ^ 2) p = 0 := by
      intro p hp
      have hc := hcirc p hp
      show 2 * p.1 * a + 2 * p.2 * b + (r ^ 2 - a ^ 2 - b ^ 2) -
        (p.1 ^ 2 + p.2 ^ 2) = 0
      linear_combination -hc
    have hobj0 : lstsqObjective pts (a, b, r ^ 2 - a ^ 2 - b ^ 2) = 0 := by
      rw [lstsqObjective]
      apply List.sum_eq_zero
      intro x hx
      obtain ⟨p, hp, rfl⟩ := List.mem_map.mp hx
      rw [hres0 p hp]
      ring
    have hnn : 0 ≤ lstsqObjective pts sol := by
      apply List.sum_nonneg
      intro x hx
      obtain ⟨p, hp, rfl⟩ := List.mem_map.mp hx
      positivity
    have hobjsol : (pts.map fun q => circleResidual sol q ^ 2).sum = 0 :=
      le_antisymm (hobj0 ▸ hsol (a, b, r ^ 2 - a ^ 2 - b ^ 2)) hnn
    have hressol : ∀ p ∈ pts, circleResidual sol p = 0 := by
      intro p hp
      have hall := sum_sq_list_zero (pts.map fun q => circleResidual sol q ^ 2)
        (by
          intro x hx
          obtain ⟨q, hq, rfl⟩ := List.mem_map.mp hx
          positivity)
        hobjsol
      have hz := hall (circleResidual sol p ^ 2) (List.mem_map_of_mem _ hp)
      exact (pow_eq_zero_iff (by norm_num)).mp hz
    have hlin : ∀ p ∈ pts, 2 * p.1 * (sol.1 - a) + 2 * p.2 * (sol.2.1 - b) +
        (sol.2.2 - (r ^ 2 - a ^ 2 - b ^ 2)) = 0 := by
      intro p hp
      have h1 : 2 * p.1 * sol.1 + 2 * p.2 * sol.2.1 + sol.2.2 -
          (p.1 ^ 2 + p.2 ^ 2) = 0 := hressol p hp
      have h2 : 2 * p.1 * a + 2 * p.2 * b + (r ^ 2 - a ^ 2 - b ^ 2) -
          (p.1 ^ 2 + p.2 ^ 2) = 0 := hres0 p hp
      linear_combination h1 - h2
    rcases pts with _ | ⟨p1, _ | ⟨p2, _ | ⟨p3, rest⟩⟩⟩
    · simp at hlen
    · simp at hlen
    · norm_num at hlen
    have hp12 : p1 ≠ p2 := (List.pairwise_cons.mp hdist).1 p2 (by simp)
    have hp13 : p1 ≠ p3 := (List.pairwise_cons.mp hdist).1 p3 (by simp)
    have hp23 : p2 ≠ p3 :=
      (List.pairwise_cons.mp (List.pairwise_cons.mp hdist).2).1 p3 (by simp)
    obtain ⟨hd1, hd2, hd3⟩ := three_point_linear_vanish p1 p2 p3 a b r
      (sol.1 - a) (sol.2.1 - b) (sol.2.2 - (r ^ 2 - a ^ 2 - b ^ 2))
      hp12 hp13 hp23
      (hcirc p1 (by simp)) (hcirc p2 (by simp)) (hcirc p3 (by simp))
      (hlin p1 (by simp)) (hlin p2 (by simp)) (hlin p3 (by simp))
    have hs1 : sol.1 = a := by linarith
    have hs2 : sol.2.1 = b := by linarith
    have hs3 : sol.2.2 = r ^ 2 - a ^ 2 - b ^ 2 := by linarith
    rw [fit_circle_2d, if_neg (Nat.not_lt.mpr hlen)]
    have hsq : sol.1 ^ 2 + sol.2.1 ^ 2 + sol.2.2 = r ^ 2 := by
      rw [hs1, hs2, hs3]; ring
    rw [hsq, Real.sqrt_sq hr.le, hs1, hs2]
  · intro pts sol h
    rw [fit_circle_2d, if_pos h]

/-- Witness for C1: three points of the unit circle, and a one-point list. -/
theorem fit_circle_2d_exact_witness :
    fit_circle_2d [((1 : ℝ), 0), (-1, 0), (0, 1)] (0, 0, 1) = ((0, 0), 1) ∧
    fit_circle_2d [((1 : ℝ), 0)] (0, 0, 1) = ((0, 0), 0) := by
  constructor
  · refine fit_circle_2d_exact.1 [((1 : ℝ), 0), (-1, 0), (0, 1)] (0, 0, 1) 0 0 1
      (by norm_num) ?_ (by norm_num) ?_ ?_
    · norm_num [List.pairwise_cons]
    · intro p hp
      fin_cases hp <;> norm_num
    · intro q2
      have h0 : lstsqObjective [((1 : ℝ), 0), (-1, 0), (0, 1)] (0, 0, 1) = 0 := by
        norm_num [lstsqObjective, circleResidual]
      rw [h0]
      apply List.sum_nonneg
      intro x hx
      obtain ⟨p, hp, rfl⟩ := List.mem_map.mp hx
      positivity
  · exact fit_circle_2d_exact.2 [((1 : ℝ), 0)] (0, 0, 1) (by norm_num)

/-- The XY slab `|x| ≤ u, |y| ≤ v` is convex. -/
theorem absBound_convex (u v : ℝ) :
    Convex ℝ {p : ℝ × ℝ × ℝ | |p.1| ≤ u ∧ |p.2.1| ≤ v} := by
  intro p hp q hq s t hs ht hst
  obtain ⟨hp1, hp2⟩ := hp
  obtain ⟨hq1, hq2⟩ := hq
  constructor
  · have h1 : (s • p + t • q).1 = s * p.1 + t * q.1 := rfl
    rw [h1]
    calc |s * p.1 + t * q.1| ≤ |s * p.1| + |t * q.1| := abs_add _ _
      _ = s * |p.1| + t * |q.1| := by
          rw [abs_mul, abs_mul, abs_of_nonneg hs, abs_of_nonneg ht]
      _ ≤ s * u + t * u :=
          add_le_add (mul_le_mul_of_nonneg_left hp1 hs)
            (mul_le_mul_of_nonneg_left hq1 ht)
      _ = u := by rw [← add_mul, hst, one_mul]
  · have h1 : (s • p + t • q).2.1 = s * p.2.1 + t * q.2.1 := rfl
    rw [h1]
    calc |s * p.2.1 + t * q.2.1| ≤ |s * p.2.1| + |t * q.2.1| := abs_add _ _
      _ = s * |p.2.1| + t * |q.2.1| := by
          rw [abs_mul, abs_mul, abs_of_nonneg hs, abs_of_nonneg ht]
      _ ≤ s * v + t * v :=
          add_le_add (mul_le_mul_of_nonneg_left hp2 hs)
            (mul_le_mul_of_nonneg_left hq2 ht)
      _ = v := by rw [← add_mul, hst, one_mul]

/-- A point of a translated corner cylinder stays within `r` of the corner
center in both X and Y. -/
theorem cyl_bound (cx cy r d : ℝ) (hr : 0 < r) (p : ℝ × ℝ × ℝ)
    (hp : p ∈ translateSet (cx, cy, 0) (cylinderSet r d)) :
    |p.1 - cx| ≤ r ∧ |p.2.1 - cy| ≤ r := by
  simp only [translateSet, cylinderSet, Set.mem_setOf_eq] at hp
  obtain ⟨h1, -⟩ := hp
  constructor
  · rw [abs_le]
    constructor
    · nlinarith [sq_nonneg (p.2.1 - cy), sq_nonneg (p.1 - cx + r)]
    · nlinarith [sq_nonneg (p.2.1 - cy), sq_nonneg (p.1 - cx - r)]
  · rw [abs_le]
    constructor
    · nlinarith [sq_nonneg (p.1 - cx), sq_nonneg (p.2.1 - cy + r)]
    · nlinarith [sq_nonneg (p.1 - cx), sq_nonneg (p.2.1 - cy - r)]

/-- A point of a translated box stays within the half-extents of its center. -/
theorem box_bound (cx cy bw bh bd : ℝ) (p : ℝ × ℝ × ℝ)
    (hp : p ∈ translateSet (cx, cy, 0) (boxSet bw bh bd)) :
    |p.1 - cx| ≤ bw / 2 ∧ |p.2.1 - cy| ≤ bh / 2 := by
  simp only [translateSet, boxSet, Set.mem_setOf_eq] at hp
  exact ⟨hp.1, hp.2.1⟩

/-- Every assembled part lies in the slab `|x| ≤ w/2 + r, |y| ≤ h/2 + r`. -/
theorem roundedRectParts_subset (w h d r : ℝ) (hr : 0 < r) (hw : 2 * r ≤ w)
    (hh : 2 * r ≤ h) :
    roundedRectParts w h d r ⊆
      {p : ℝ × ℝ × ℝ | |p.1| ≤ w / 2 + r ∧ |p.2.1| ≤ h / 2 + r} := by
  intro p hp
  simp only [roundedRectParts, Set.mem_union] at hp
  rcases hp with ((((((((hb | hc1) | hc2) | hc3) | hc4) | ht1) | ht2) | hl1) | hl2)
  · simp only [boxSet, Set.mem_setOf_eq] at hb
    have h1 := abs_le.mp hb.1
    have h2 := abs_le.mp hb.2.1
    exact ⟨abs_le.mpr ⟨by linarith, by linarith⟩,
      abs_le.mpr ⟨by linarith, by linarith⟩⟩
  · obtain ⟨hx, hy⟩ := cyl_bound (w / 2 - r) (h / 2 - r) r d hr p hc1
    have h1 := abs_le.mp hx
    have h2 := abs_le.mp hy
    exact ⟨abs_le.mpr ⟨by linarith, by linarith⟩,
      abs_le.mpr ⟨by linarith, by linarith⟩⟩
  · obtain ⟨hx, hy⟩ := cyl_bound (-(w / 2 - r)) (h / 2 - r) r d hr p hc2
    have h1 := abs_le.mp hx
    have h2 := abs_le.mp hy
    exact ⟨abs_le.mpr ⟨by linarith, by linarith⟩,
      abs_le.mpr ⟨by linarith, by linarith⟩⟩
  · obtain ⟨hx, hy⟩ := cyl_bound (-(w / 2 - r)) (-(h / 2 - r)) r d hr p hc3
    have h1 := abs_le.mp hx
    have h2 := abs_le.mp hy
    exact ⟨abs_le.mpr ⟨by linarith, by linarith⟩,
      abs_le.mpr ⟨by linarith, by linarith⟩⟩
  · obtain ⟨hx, hy⟩ := cyl_bound (w / 2 - r) (-(h / 2 - r)) r d hr p hc4
    have h1 := abs_le.mp hx
    have h2 := abs_le.mp hy
    exact ⟨abs_le.mpr ⟨by linarith, by linarith⟩,
      abs_le.mpr ⟨by linarith, by linarith⟩⟩
  · obtain ⟨hx, hy⟩ := box_bound 0 (h / 2 - r + r) (w - 2 * r) (2 * r) d p ht1
    have h1 := abs_le.mp hx
    have h2 := abs_le.mp hy
    exact ⟨abs_le.mpr ⟨by linarith, by linarith⟩,
      abs_le.mpr ⟨by linarith, by linarith⟩⟩
  · obtain ⟨hx, hy⟩ := box_bound 0 (-(h / 2 - r) - r) (w - 2 * r) (2 * r) d p ht2
    have h1 := abs_le.mp hx
    have h2 := abs_le.mp hy
    exact ⟨abs_le.mpr ⟨by linarith, by linarith⟩,
      abs_le.mpr ⟨by linarith, by linarith⟩⟩
  · obtain ⟨hx, hy⟩ := box_bound (-(w / 2 - r) - r) 0 (2 * r) (h - 2 * r) d p hl1
    have h1 := abs_le.mp hx
    have h2 := abs_le.mp hy
    exact ⟨abs_le.mpr ⟨by linarith, by linarith⟩,
      abs_le.mpr ⟨by linarith, by linarith⟩⟩
  · obtain ⟨hx, hy⟩ := box_bound (w / 2 - r + r) 0 (2 * r) (h - 2 * r) d p hl2
    have h1 := abs_le.mp hx
    have h2 := abs_le.mp hy
    exact ⟨abs_le.mpr ⟨by linarith, by linarith⟩,
      abs_le.mpr ⟨by linarith, by linarith⟩⟩

/-- The four extreme points of the assembled parts: the side strips stick
out to `±(w/2 + r)` in X and `±(h/2 + r)` in Y. -/
theorem roundedRectParts_extremal (w h d r : ℝ) (hr : 0 < r) (hw : 2 * r ≤ w)
    (hh : 2 * r ≤ h) (hd : 0 < d) :
    (w / 2 + r, 0, 0) ∈ roundedRectParts w h d r ∧
    (-(w / 2 + r), 0, 0) ∈ roundedRectParts w h d r ∧
    ((0 : ℝ), h / 2 + r, 0) ∈ roundedRectParts w h d r ∧
    ((0 : ℝ), -(h / 2 + r), 0) ∈ roundedRectParts w h d r := by
  refine ⟨?_, ?_, ?_, ?_⟩
  · simp only [roundedRectParts]
    refine Set.mem_union_right _ ?_
    show ((w / 2 + r) - (w / 2 - r + r), (0 : ℝ) - 0, (0 : ℝ) - 0) ∈
      boxSet (2 * r) (h - 2 * r) d
    refine ⟨?_, ?_, ?_⟩
    · have e : (w / 2 + r) - (w / 2 - r + r) = r := by ring
      rw [e, abs_of_pos hr]; linarith
    · rw [sub_zero, abs_zero]; linarith
    · rw [sub_zero, abs_zero]; linarith
  · simp only [roundedRectParts]
    refine Set.mem_union_left _ (Set.mem_union_right _ ?_)
    show (-(w / 2 + r) - (-(w / 2 - r) - r), (0 : ℝ) - 0, (0 : ℝ) - 0) ∈
      boxSet (2 * r) (h - 2 * r) d
    refine ⟨?_, ?_, ?_⟩
    · have e : -(w / 2 + r) - (-(w / 2 - r) - r) = -r := by ring
      rw [e, abs_neg, abs_of_pos hr]; linarith
    · rw [sub_zero, abs_zero]; linarith
    · rw [sub_zero, abs_zero]; linarith
  · simp only [roundedRectParts]
    refine Set.mem_union_left _ (Set.mem_union_left _ (Set.mem_union_left _
      (Set.mem_union_right _ ?_)))
    show ((0 : ℝ) - 0, (h / 2 + r) - (h / 2 - r + r), (0 : ℝ) - 0) ∈
      boxSet (w - 2 * r) (2 * r) d
    refine ⟨?_, ?_, ?_⟩
    · rw [sub_zero, abs_zero]; linarith
    · have e : (h / 2 + r) - (h / 2 - r + r) = r := by ring
      rw [e, abs_of_pos hr]; linarith
    · rw [sub_zero, abs_zero]; linarith
  · simp only [roundedRectParts]
    refine Set.mem_union_left _ (Set.mem_union_left _ (Set.mem_union_right _ ?_))
    show ((0 : ℝ) - 0, -(h / 2 + r) - (-(h / 2 - r) - r), (0 : ℝ) - 0) ∈
      boxSet (w - 2 * r) (2 * r) d
    refine ⟨?_, ?_, ?_⟩
    · rw [sub_zero, abs_zero]; linarith
    · have e : -(h / 2 + r) - (-(h / 2 - r) - r) = -r := by ring
      rw [e, abs_neg, abs_of_pos hr]; linarith
    · rw [sub_zero, abs_zero]; linarith

/-- Any set squeezed between the assembled parts and the enclosing slab has,
after translation to `c`, the bounding rectangle
`(w + 2r) × (h + 2r)` centered at `c`. -/
theorem bbox_of_sandwich (w h d r : ℝ) (c : ℝ × ℝ × ℝ) (S : Set (ℝ × ℝ × ℝ))
    (hr : 0 < r) (hw : 2 * r ≤ w) (hh : 2 * r ≤ h) (hd : 0 < d)
    (hsub : roundedRectParts w h d r ⊆ S)
    (hsup : S ⊆ {p : ℝ × ℝ × ℝ | |p.1| ≤ w / 2 + r ∧ |p.2.1| ≤ h / 2 + r}) :
    HasBBoxXY (translateSet c S) (c.1 - (w / 2 + r)) (c.1 + (w / 2 + r))
      (c.2.1 - (h / 2 + r)) (c.2.1 + (h / 2 + r)) := by
  obtain ⟨hx1, hx2, hy1, hy2⟩ := roundedRectParts_extremal w h d r hr hw hh hd
  refine ⟨?_, ?_, ?_, ?_, ?_⟩
  · intro p hp
    obtain ⟨h1, h2⟩ := hsup hp
    rw [abs_le] at h1 h2
    exact ⟨by linarith [h1.1], by linarith [h1.2],
      by linarith [h2.1], by linarith [h2.2]⟩
  · refine ⟨(c.1 - (w / 2 + r), c.2.1, c.2.2), ?_, rfl⟩
    show ((c.1 - (w / 2 + r)) - c.1, c.2.1 - c.2.1, c.2.2 - c.2.2) ∈ S
    have e : ((c.1 - (w / 2 + r)) - c.1, c.2.1 - c.2.1, c.2.2 - c.2.2) =
        ((-(w / 2 + r), 0, 0) : ℝ × ℝ × ℝ) := by
      simp
    rw [e]
    exact hsub hx2
  · refine ⟨(c.1 + (w / 2 + r), c.2.1, c.2.2), ?_, rfl⟩
    show ((c.1 + (w / 2 + r)) - c.1, c.2.1 - c.2.1, c.2.2 - c.2.2) ∈ S
    have e : ((c.1 + (w / 2 + r)) - c.1, c.2.1 - c.2.1, c.2.2 - c.2.2) =
        ((w / 2 + r, 0, 0) : ℝ × ℝ × ℝ) := by
      simp
    rw [e]
    exact hsub hx1
  · refine ⟨(c.1, c.2.1 - (h / 2 + r), c.2.2), ?_, rfl⟩
    show (c.1 - c.1, (c.2.1 - (h / 2 + r)) - c.2.1, c.2.2 - c.2.2) ∈ S
    have e : (c.1 - c.1, (c.2.1 - (h / 2 + r)) - c.2.1, c.2.2 - c.2.2) =
        (((0 : ℝ), -(h / 2 + r), 0) : ℝ × ℝ × ℝ) := by
      simp
    rw [e]
    exact hsub hy2
  · refine ⟨(c.1, c.2.1 + (h / 2 + r), c.2.2), ?_, rfl⟩
    show (c.1 - c.1, (c.2.1 + (h / 2 + r)) - c.2.1, c.2.2 - c.2.2) ∈ S
    have e : (c.1 - c.1, (c.2.1 + (h / 2 + r)) - c.2.1, c.2.2 - c.2.2) =
        (((0 : ℝ), h / 2 + r, 0) : ℝ × ℝ × ℝ) := by
      simp
    rw [e]
    exact hsub hy1

/-- C2 counterexample: with width = height = 4, depth = 2, corner radius 1
and center at the origin, both cutout builders contain the point `(3, 0, 0)`,
whose X coordinate exceeds `center.x + width/2 = 2` — so the bounding box is
not `width` by `height`. -/
theorem cutout_exceeds_claimed_bbox :
    ¬ (∀ p ∈ create_rounded_rectangle_cutout 4 4 2 1 ((0 : ℝ), 0, 0),
        p.1 ≤ 0 + 4 / 2) ∧
    ¬ (∀ p ∈ create_precise_cutout 4 4 2 1 ((0 : ℝ), 0, 0) none,
        p.1 ≤ 0 + 4 / 2) := by
  have hmem : ((3 : ℝ), (0 : ℝ), (0 : ℝ)) ∈ roundedRectParts 4 4 2 1 := by
    simp only [roundedRectParts]
    refine Set.mem_union_right _ ?_
    show ((3 : ℝ) - (4 / 2 - 1 + 1), (0 : ℝ) - 0, (0 : ℝ) - 0) ∈
      boxSet (2 * 1) (4 - 2 * 1) 2
    refine ⟨?_, ?_, ?_⟩ <;> norm_num
  constructor
  · intro hall
    have h3 : ((3 : ℝ), (0 : ℝ), (0 : ℝ)) ∈
        create_rounded_rectangle_cutout 4 4 2 1 ((0 : ℝ), 0, 0) := by
      rw [create_rounded_rectangle_cutout, if_pos (by norm_num : (0 : ℝ) < 1)]
      show ((3 : ℝ) - 0, (0 : ℝ) - 0, (0 : ℝ) - 0) ∈
        convexHull ℝ (roundedRectParts 4 4 2 1)
      have e : ((3 : ℝ) - 0, (0 : ℝ) - 0, (0 : ℝ) - 0) =
          (((3 : ℝ), (0 : ℝ), (0 : ℝ)) : ℝ × ℝ × ℝ) := by norm_num
      rw [e]
      exact subset_convexHull ℝ _ hmem
    have hle := hall _ h3
    norm_num at hle
  · intro hall
    have h3 : ((3 : ℝ), (0 : ℝ), (0 : ℝ)) ∈
        create_precise_cutout 4 4 2 1 ((0 : ℝ), 0, 0) none := by
      show ((3 : ℝ), (0 : ℝ), (0 : ℝ)) ∈
        if (0 : ℝ) < 1 then
          translateSet ((0 : ℝ), 0, 0) (roundedRectParts 4 4 2 1)
        else translateSet ((0 : ℝ), 0, 0) (boxSet 4 4 2)
      rw [if_pos (by norm_num : (0 : ℝ) < 1)]
      show ((3 : ℝ) - 0, (0 : ℝ) - 0, (0 : ℝ) - 0) ∈ roundedRectParts 4 4 2 1
      have e : ((3 : ℝ) - 0, (0 : ℝ) - 0, (0 : ℝ) - 0) =
          (((3 : ℝ), (0 : ℝ), (0 : ℝ)) : ℝ × ℝ × ℝ) := by norm_num
      rw [e]
      exact hmem
    have hle := hall _ h3
    norm_num at hle

/-- C2 amended: for positive dimensions and `0 < corner_radius ≤
min(width, height)/2`, both cutout builders produce a solid whose XY
bounding box is exactly `(width + 2*corner_radius)` by
`(height + 2*corner_radius)`, centered at the given center — larger than the
stated cutout size by `2*corner_radius` in each axis. -/
theorem cutout_bbox_oversized (w h d r : ℝ) (c : ℝ × ℝ × ℝ)
    (hw : 0 < w) (hh : 0 < h) (hd : 0 < d) (hr : 0 < r)
    (hrm : r ≤ min w h / 2) :
    HasBBoxXY (create_rounded_rectangle_cutout w h d r c)
      (c.1 - (w / 2 + r)) (c.1 + (w / 2 + r))
      (c.2.1 - (h / 2 + r)) (c.2.1 + (h / 2 + r)) ∧
    HasBBoxXY (create_precise_cutout w h d r c none)
      (c.1 - (w / 2 + r)) (c.1 + (w / 2 + r))
      (c.2.1 - (h / 2 + r)) (c.2.1 + (h / 2 + r)) := by
  have hw2 : 2 * r ≤ w := by linarith [min_le_left w h]
  have hh2 : 2 * r ≤ h := by linarith [min_le_right w h]
  constructor
  · rw [create_rounded_rectangle_cutout, if_pos hr]
    exact bbox_of_sandwich w h d r c _ hr hw2 hh2 hd
      (subset_convexHull ℝ _)
      (convexHull_min (roundedRectParts_subset w h d r hr hw2 hh2)
        (absBound_convex _ _))
  · show HasBBoxXY
      (if 0 < r then translateSet c (roundedRectParts w h d r)
       else translateSet c (boxSet w h d)) _ _ _ _
    rw [if_pos hr]
    exact bbox_of_sandwich w h d r c _ hr hw2 hh2 hd (subset_refl _)
      (roundedRectParts_subset w h d r hr hw2 hh2)

/-- Witness for the amended C2 at width = height = 4, depth = 2, radius 1. -/
theorem cutout_bbox_oversized_witness :
    HasBBoxXY (create_rounded_rectangle_cutout 4 4 2 1 ((0 : ℝ), 0, 0))
      (0 - (4 / 2 + 1)) (0 + (4 / 2 + 1)) (0 - (4 / 2 + 1)) (0 + (4 / 2 + 1)) ∧
    HasBBoxXY (create_precise_cutout 4 4 2 1 ((0 : ℝ), 0, 0) none)
      (0 - (4 / 2 + 1)) (0 + (4 / 2 + 1)) (0 - (4 / 2 + 1)) (0 + (4 / 2 + 1)) :=
  cutout_bbox_oversized 4 4 2 1 ((0 : ℝ), 0, 0) (by norm_num) (by norm_num)
    (by norm_num) (by norm_num) (by norm_num)

end Scad
